import Mathlib

/-!
Verification of `extract_bq_to_dataset`
(src/pipeline_components/bigquery/bigquery/extract_dataset/component.py).

The component body is pure string/path computation plus one backend call
(`client.extract_table` / `extract_job.result()`).  We embed:

* the POSIX path helpers the component uses (`os.path.join`,
  `os.path.dirname`, as in CPython's `posixpath.py`, since the component
  runs on a Linux base image);
* Python truthiness of the optional `file_pattern` string;
* the component itself as a function from its parameters plus an abstract
  backend-job behaviour to a trace recording the submitted request, the
  log entries and the outcome (returned pair, or raised error).
-/

deriving instance DecidableEq for Except

namespace ExtractDataset

/-- Python `b.startswith("/")`. -/
def py_startswith_slash (b : String) : Bool :=
  b.data.head? = some '/'

/-- Python `a.endswith("/")`. -/
def py_endswith_slash (a : String) : Bool :=
  a.data.reverse.head? = some '/'

/-- CPython `posixpath.join(a, b)` (two arguments, `sep = '/'`):
`b` if `b` starts with the separator; `a + b` if `a` is empty or ends with
the separator; otherwise `a + sep + b`. -/
def os_path_join (a b : String) : String :=
  if py_startswith_slash b then b
  else if a = "" || py_endswith_slash a then String.mk (a.data ++ b.data)
  else String.mk (a.data ++ '/' :: b.data)

/-- The slice `p[:p.rfind('/') + 1]`: everything up to and including the last slash
(empty when there is no slash).  Computed by dropping, from the reversed
character list, the maximal slash-free tail. -/
def headUpToLastSlash (l : List Char) : List Char :=
  (l.reverse.dropWhile (fun c => !(c == '/'))).reverse

/-- Python `head.rstrip('/')`: remove all trailing slashes. -/
def rstripSlashes (l : List Char) : List Char :=
  (l.reverse.dropWhile (fun c => c == '/')).reverse

/-- CPython `posixpath.dirname(p)` on the character list: take
`head = p[:p.rfind('/') + 1]`; if `head` is non-empty and not made of
slashes only, strip its trailing slashes. -/
def dirnameData (l : List Char) : List Char :=
  let head := headUpToLastSlash l
  if head = [] then head
  else if head.all (fun c => c == '/') then head
  else rstripSlashes head

/-- CPython `posixpath.dirname(p)`. -/
def os_path_dirname (p : String) : String :=
  String.mk (dirnameData p.data)

/-- Python truthiness of the optional `file_pattern` argument
(`if file_pattern:`): `None` and `""` are falsy, every other string truthy. -/
def py_truthy : Option String → Bool
  | none => false
  | some s => !(s == "")

/-- Model of `bigquery.table.Table(table_ref=full_table_id)`: carries the
fully-qualified table id. -/
structure Table where
  full_table_id : String
deriving DecidableEq, Repr

/-- Model of `bigquery.job.ExtractJobConfig(**extract_job_config)`: the job
configuration built from the caller-supplied key/value overrides. -/
structure ExtractJobConfig where
  params : List (String × String)
deriving DecidableEq, Repr

/-- Model of `bigquery.client.Client(project=..., location=...)`. -/
structure Client where
  project : String
  location : String
deriving DecidableEq, Repr

/-- The extract request as handed to `client.extract_table`. -/
structure SubmittedExtractJob where
  table : Table
  destination_uri : String
  job_config : ExtractJobConfig
  client : Client
deriving DecidableEq, Repr

/-- One `logging` call made by the component. -/
inductive LogEntry (ε : Type) where
  /-- Entry from `logging.info(...)`. -/
  | info (msg : String)
  /-- Entry from `logging.error(e)`. -/
  | error_msg (e : ε)
  /-- Entry from `logging.error(extract_job.error_result)`. -/
  | error_result (r : Option String)
  /-- Entry from `logging.error(extract_job.errors)`. -/
  | error_list (l : List String)
deriving DecidableEq, Repr

/-- Abstract behaviour of the backend job: what `extract_job.result()`
does (returns a result value, or raises an error of type `ε`), and the
job's `error_result` / `errors` attributes read when logging a failure. -/
structure ExtractJobBehavior (ε : Type) where
  job_result : Except ε String
  error_result : Option String
  errors : List String

/-- Everything observable about one invocation: the submitted request,
the log entries in order, and the outcome — `Except.ok` with the returned
`(dataset_directory, [dataset_uri])` pair, or `Except.error` with the
re-raised error. -/
structure InvocationTrace (ε : Type) where
  submitted : SubmittedExtractJob
  logs : List (LogEntry ε)
  outcome : Except ε (String × List String)
deriving DecidableEq

/-- Shallow embedding of `extract_bq_to_dataset`.  `dataset_uri` is the
orchestrator-supplied `dataset.uri` base destination; `extract_job`
abstracts the backend's behaviour for this invocation. -/
def extract_bq_to_dataset {ε : Type}
    (bq_client_project_id : String)
    (source_project_id : String)
    (dataset_id : String)
    (table_name : String)
    (dataset_uri : String)
    (dataset_location : String)
    (extract_job_config : Option (List (String × String)))
    (file_pattern : Option String)
    (extract_job : ExtractJobBehavior ε) : InvocationTrace ε :=
  let full_table_id := source_project_id ++ "." ++ dataset_id ++ "." ++ table_name
  let cfg : List (String × String) :=
    match extract_job_config with
    | none => []
    | some m => m
  let table : Table := ⟨full_table_id⟩
  let job_config : ExtractJobConfig := ⟨cfg⟩
  let client : Client := ⟨bq_client_project_id, dataset_location⟩
  let dataset_uri2 :=
    if py_truthy file_pattern then os_path_join dataset_uri (file_pattern.getD "")
    else dataset_uri
  let dataset_directory := os_path_dirname dataset_uri2
  let submitted : SubmittedExtractJob := ⟨table, dataset_uri2, job_config, client⟩
  let submitLog : LogEntry ε :=
    .info ("Extract table " ++ full_table_id ++ " to " ++ dataset_uri2)
  match extract_job.job_result with
  | .ok r =>
      { submitted := submitted
        logs := [submitLog, .info ("Table extracted, result: " ++ r)]
        outcome := .ok (dataset_directory, [dataset_uri2]) }
  | .error e =>
      { submitted := submitted
        logs := [submitLog, .error_msg e, .error_result extract_job.error_result,
                 .error_list extract_job.errors]
        outcome := .error e }

/-- A backend behaviour whose `result()` call succeeds (used to witness
the success-path theorems at concrete inputs). -/
def okJob : ExtractJobBehavior String :=
  { job_result := .ok "done", error_result := none, errors := [] }

/-- A backend behaviour whose `result()` call raises (used to witness the
failure-path theorem at concrete inputs). -/
def failJob : ExtractJobBehavior String :=
  { job_result := .error "boom", error_result := some "job error result",
    errors := ["err1", "err2"] }

/-- C1: without a `file_pattern`, the returned output directory is the
`os.path.dirname` of the base destination and the single returned output
URI is the base destination unchanged. -/
theorem no_pattern_outputs {ε : Type} (bq src ds tbl uri loc : String)
    (cfg : Option (List (String × String))) (job : ExtractJobBehavior ε)
    (r : String) (h : job.job_result = .ok r) :
    (extract_bq_to_dataset bq src ds tbl uri loc cfg none job).outcome
      = .ok (os_path_dirname uri, [uri]) := by
  simp [extract_bq_to_dataset, py_truthy, h]

/-- Witness for C1 at concrete inputs. -/
theorem no_pattern_outputs_witness :
    okJob.job_result = .ok "done" ∧
    (extract_bq_to_dataset "proj-a" "proj-b" "ds1" "t1" "gs://bucket/out" "EU"
        none none okJob).outcome = .ok ("gs://bucket", ["gs://bucket/out"]) := by
  refine ⟨rfl, ?_⟩
  rw [no_pattern_outputs "proj-a" "proj-b" "ds1" "t1" "gs://bucket/out" "EU"
    none okJob "done" rfl]
  decide

/-- C4: supplying no job-configuration overrides builds the configuration
from an empty mapping, identical to supplying an empty dict. -/
theorem none_config_is_empty_config {ε : Type} (bq src ds tbl uri loc : String)
    (fp : Option String) (job : ExtractJobBehavior ε) :
    (extract_bq_to_dataset bq src ds tbl uri loc none fp job).submitted.job_config
        = ⟨[]⟩ ∧
    (extract_bq_to_dataset bq src ds tbl uri loc none fp job).submitted.job_config
      = (extract_bq_to_dataset bq src ds tbl uri loc (some []) fp job).submitted.job_config := by
  cases h : job.job_result <;> simp [extract_bq_to_dataset, h]

/-- C5: whenever the invocation returns, the result is the destination
directory together with a list containing exactly one URI, and the
directory is the `os.path.dirname` of that URI. -/
theorem returned_pair_shape {ε : Type} (bq src ds tbl uri loc : String)
    (cfg : Option (List (String × String))) (fp : Option String)
    (job : ExtractJobBehavior ε) (d : String) (us : List String)
    (h : (extract_bq_to_dataset bq src ds tbl uri loc cfg fp job).outcome
          = .ok (d, us)) :
    ∃ u, us = [u] ∧ d = os_path_dirname u := by
  cases hr : job.job_result with
  | ok r =>
      simp [extract_bq_to_dataset, hr] at h
      exact ⟨_, h.2.symm, h.1.symm⟩
  | error e => simp [extract_bq_to_dataset, hr] at h

/-- Witness for C5 at concrete inputs. -/
theorem returned_pair_shape_witness :
    ∃ u, ["gs://bucket/out"] = [u] ∧ "gs://bucket" = os_path_dirname u :=
  returned_pair_shape "proj-a" "proj-b" "ds1" "t1" "gs://bucket/out" "EU"
    none none okJob "gs://bucket" ["gs://bucket/out"] (by decide)

/-- C8: an empty `file_pattern` string is falsy in the `if file_pattern:`
test, so the invocation is literally identical to one without a pattern. -/
theorem empty_pattern_eq_no_pattern {ε : Type} (bq src ds tbl uri loc : String)
    (cfg : Option (List (String × String))) (job : ExtractJobBehavior ε) :
    extract_bq_to_dataset bq src ds tbl uri loc cfg (some "") job
      = extract_bq_to_dataset bq src ds tbl uri loc cfg none job := rfl

/-- C6: at the concrete example inputs without a file pattern, the
fully-qualified table reference uses the source project, the output URI
list is the base destination alone and the directory is its parent. -/
theorem concrete_no_pattern_example :
    (extract_bq_to_dataset "proj-a" "proj-b" "ds1" "t1" "gs://bucket/out" "EU"
        none none okJob).submitted.table = ⟨"proj-b.ds1.t1"⟩ ∧
    (extract_bq_to_dataset "proj-a" "proj-b" "ds1" "t1" "gs://bucket/out" "EU"
        none none okJob).outcome = .ok ("gs://bucket", ["gs://bucket/out"]) := by
  decide

/-- List `dropWhile` skips a leading block whose elements all satisfy the
predicate. -/
theorem dropWhile_append_of_forall {q : Char → Bool} {l1 l2 : List Char}
    (h : ∀ x ∈ l1, q x = true) :
    (l1 ++ l2).dropWhile q = l2.dropWhile q := by
  induction l1 with
  | nil => rfl
  | cons a l ih =>
    rw [List.cons_append, List.dropWhile_cons, if_pos (h a (List.mem_cons_self a l))]
    exact ih fun x hx => h x (List.mem_cons_of_mem a hx)

/-- The dirname of a slash-free path is empty. -/
theorem dirnameData_of_no_slash {m : List Char} (hm : '/' ∉ m) :
    dirnameData m = [] := by
  have hdrop : m.reverse.dropWhile (fun c => !(c == '/')) = [] := by
    rw [List.dropWhile_eq_nil_iff]
    intro x hx
    have hxm : x ∈ m := List.mem_reverse.mp hx
    have : x ≠ '/' := fun he => hm (he ▸ hxm)
    simp [this]
  simp [dirnameData, headUpToLastSlash, hdrop]

/-- The dirname of `l ++ "/" ++ m` is `l`, whenever the appended
component `m` is slash-free and `l` is non-empty and does not end with a
slash. -/
theorem dirnameData_append_slash {l m : List Char} (hm : '/' ∉ m)
    (hl : l ≠ []) (hle : l.reverse.head? ≠ some '/') :
    dirnameData (l ++ '/' :: m) = l := by
  obtain ⟨c, t, hct⟩ : ∃ c t, l.reverse = c :: t := by
    cases hr : l.reverse with
    | nil => exact absurd (List.reverse_eq_nil_iff.mp hr) hl
    | cons c t => exact ⟨c, t, rfl⟩
  have hc : c ≠ '/' := by
    rw [hct] at hle; simpa using hle
  have hcl : c ∈ l := by
    have : c ∈ l.reverse := by rw [hct]; exact List.mem_cons_self c t
    exact List.mem_reverse.mp this
  have hrev : (l ++ '/' :: m).reverse = m.reverse ++ '/' :: l.reverse := by
    rw [List.reverse_append, List.reverse_cons]
    simp [List.append_assoc]
  have hall : ∀ x ∈ m.reverse, (fun c => !(c == '/')) x = true := by
    intro x hx
    have hxm : x ∈ m := List.mem_reverse.mp hx
    have : x ≠ '/' := fun he => hm (he ▸ hxm)
    simp [this]
  have hhead : headUpToLastSlash (l ++ '/' :: m) = l ++ ['/'] := by
    unfold headUpToLastSlash
    rw [hrev, dropWhile_append_of_forall hall, List.dropWhile_cons]
    simp
  have hne : l ++ ['/'] ≠ [] := by simp
  have hnall : ¬ ((l ++ ['/']).all (fun c => c == '/') = true) := by
    intro hall2
    have := List.all_eq_true.mp hall2 c (by simp [hcl])
    simp [hc] at this
  have hstrip : rstripSlashes (l ++ ['/']) = l := by
    unfold rstripSlashes
    rw [List.reverse_append]
    simp only [List.reverse_cons, List.reverse_nil, List.nil_append,
      List.singleton_append]
    rw [List.dropWhile_cons, if_pos (by simp), hct, List.dropWhile_cons,
      if_neg (by simp [hc])]
    rw [← hct, List.reverse_reverse]
  simp only [dirnameData, hhead]
  rw [if_neg hne, if_neg hnall, hstrip]

/-- The string-level consequence used for the amended C2: joining a
non-empty slash-free pattern onto a base that does not end with `"/"` and
taking `os.path.dirname` gives back the base. -/
theorem dirname_join_of_simple_pattern (a p : String) (hns : '/' ∉ p.data)
    (ha : py_endswith_slash a = false) :
    os_path_dirname (os_path_join a p) = a := by
  have hstart : py_startswith_slash p = false := by
    cases hd : p.data with
    | nil => simp [py_startswith_slash, hd]
    | cons c t =>
      have hcne : c ≠ '/' := by
        intro he
        exact hns (by rw [hd, he]; exact List.mem_cons_self _ _)
      simp [py_startswith_slash, hd, hcne]
  by_cases haa : a = ""
  · subst haa
    have hj : os_path_join "" p = String.mk p.data := by
      simp [os_path_join, hstart]
    rw [hj]
    show String.mk (dirnameData p.data) = ""
    rw [dirnameData_of_no_slash hns]
  · have hend : a.data.reverse.head? ≠ some '/' := by
      simpa [py_endswith_slash] using ha
    have hadne : a.data ≠ [] := by
      intro h0
      apply haa
      have h1 : String.mk a.data = String.mk [] := congrArg String.mk h0
      exact h1
    have hj : os_path_join a p = String.mk (a.data ++ '/' :: p.data) := by
      simp [os_path_join, hstart, haa, ha]
    rw [hj]
    show String.mk (dirnameData (a.data ++ '/' :: p.data)) = a
    rw [dirnameData_append_slash hns hadne hend]

/-- Helper: on backend success the outcome is always
`(dirname effective_uri, [effective_uri])` where the effective URI is the
base destination, joined with the file pattern when that is truthy. -/
theorem success_outcome {ε : Type} (bq src ds tbl uri loc : String)
    (cfg : Option (List (String × String))) (fp : Option String)
    (job : ExtractJobBehavior ε) (r : String) (h : job.job_result = .ok r) :
    (extract_bq_to_dataset bq src ds tbl uri loc cfg fp job).outcome
      = .ok (os_path_dirname
               (if py_truthy fp then os_path_join uri (fp.getD "") else uri),
             [if py_truthy fp then os_path_join uri (fp.getD "") else uri]) := by
  simp [extract_bq_to_dataset, h]

/-- C2 counterexample: with `file_pattern = "a/b"` (a pattern containing a
slash) the returned directory is `"gs://bucket/out/a"`, not the base
destination `"gs://bucket/out"`, so the claim's directory clause fails. -/
theorem pattern_outputs_counterexample :
    ¬ ((extract_bq_to_dataset "proj-a" "proj-b" "ds1" "t1" "gs://bucket/out" "EU"
        none (some "a/b") okJob).outcome
      = .ok ("gs://bucket/out", [os_path_join "gs://bucket/out" "a/b"])) := by
  decide

/-- C2 (amended): with a provided non-empty `file_pattern = p`, the output
URI is always `os.path.join(base, p)`; the output directory equals the base
destination provided `p` contains no slash and the base does not end with
`"/"` (otherwise the directory is the dirname of the joined path, which can
differ from the base). -/
theorem pattern_outputs_amended {ε : Type} (bq src ds tbl uri loc : String)
    (cfg : Option (List (String × String))) (p : String)
    (job : ExtractJobBehavior ε) (r : String)
    (hp : p ≠ "") (h : job.job_result = .ok r) :
    (extract_bq_to_dataset bq src ds tbl uri loc cfg (some p) job).outcome
      = .ok (os_path_dirname (os_path_join uri p), [os_path_join uri p]) ∧
    ('/' ∉ p.data → py_endswith_slash uri = false →
      os_path_dirname (os_path_join uri p) = uri) := by
  have htr : py_truthy (some p) = true := by simp [py_truthy, hp]
  constructor
  · rw [success_outcome bq src ds tbl uri loc cfg (some p) job r h]
    simp [htr]
  · intro hns hend
    exact dirname_join_of_simple_pattern uri p hns hend

/-- Witness for the amended C2 at concrete inputs. -/
theorem pattern_outputs_amended_witness :
    ("part-*.csv" : String) ≠ "" ∧
    okJob.job_result = .ok "done" ∧
    ((extract_bq_to_dataset "proj-a" "proj-b" "ds1" "t1" "gs://bucket/out" "EU"
        none (some "part-*.csv") okJob).outcome
      = .ok (os_path_dirname (os_path_join "gs://bucket/out" "part-*.csv"),
             [os_path_join "gs://bucket/out" "part-*.csv"]) ∧
     ('/' ∉ ("part-*.csv" : String).data →
      py_endswith_slash "gs://bucket/out" = false →
      os_path_dirname (os_path_join "gs://bucket/out" "part-*.csv")
        = "gs://bucket/out")) :=
  ⟨by decide, rfl,
    pattern_outputs_amended "proj-a" "proj-b" "ds1" "t1" "gs://bucket/out" "EU"
      none "part-*.csv" okJob "done" (by decide) rfl⟩

/-- C3: when the backend job's completion wait raises an error, the
invocation logs the error, the job's structured error result and its
error list, re-raises the same error, and produces no output pair. -/
theorem backend_error_logged_and_reraised {ε : Type} (bq src ds tbl uri loc : String)
    (cfg : Option (List (String × String))) (fp : Option String)
    (job : ExtractJobBehavior ε) (e : ε) (h : job.job_result = .error e) :
    (extract_bq_to_dataset bq src ds tbl uri loc cfg fp job).outcome
        = .error e ∧
    (∃ m, (extract_bq_to_dataset bq src ds tbl uri loc cfg fp job).logs
        = [.info m, .error_msg e, .error_result job.error_result,
           .error_list job.errors]) ∧
    ∀ out, (extract_bq_to_dataset bq src ds tbl uri loc cfg fp job).outcome
        ≠ .ok out := by
  refine ⟨?_, ⟨"Extract table " ++ (src ++ "." ++ ds ++ "." ++ tbl) ++ " to "
    ++ (if py_truthy fp then os_path_join uri (fp.getD "") else uri), ?_⟩, ?_⟩ <;>
    simp [extract_bq_to_dataset, h]

/-- Witness for C3 at concrete inputs. -/
theorem backend_error_logged_and_reraised_witness :
    failJob.job_result = .error "boom" ∧
    (extract_bq_to_dataset "proj-a" "proj-b" "ds1" "t1" "gs://bucket/out" "EU"
        none none failJob).outcome = .error "boom" :=
  ⟨rfl, (backend_error_logged_and_reraised "proj-a" "proj-b" "ds1" "t1"
    "gs://bucket/out" "EU" none none failJob "boom" rfl).1⟩

/-- C9: a `file_pattern` beginning with `"/"` makes `os.path.join` discard
the base destination: the output URI is the pattern alone and the
directory is its `os.path.dirname`. -/
theorem absolute_pattern_discards_base {ε : Type} (bq src ds tbl uri loc : String)
    (cfg : Option (List (String × String))) (p : String)
    (job : ExtractJobBehavior ε) (r : String)
    (hp : py_startswith_slash p = true) (h : job.job_result = .ok r) :
    (extract_bq_to_dataset bq src ds tbl uri loc cfg (some p) job).outcome
      = .ok (os_path_dirname p, [p]) := by
  have hpne : p ≠ "" := by
    intro he; subst he; simp [py_startswith_slash] at hp
  have htr : py_truthy (some p) = true := by
    simp [py_truthy, hpne]
  have hj : os_path_join uri p = p := by
    simp [os_path_join, hp]
  rw [success_outcome bq src ds tbl uri loc cfg (some p) job r h]
  simp [htr, hj]

/-- Witness for C9 at concrete inputs. -/
theorem absolute_pattern_discards_base_witness :
    py_startswith_slash "/abs/data.csv" = true ∧
    okJob.job_result = .ok "done" ∧
    (extract_bq_to_dataset "proj-a" "proj-b" "ds1" "t1" "gs://bucket/out" "EU"
        none (some "/abs/data.csv") okJob).outcome
      = .ok ("/abs", ["/abs/data.csv"]) := by
  refine ⟨by decide, rfl, ?_⟩
  rw [absolute_pattern_discards_base "proj-a" "proj-b" "ds1" "t1" "gs://bucket/out"
    "EU" none "/abs/data.csv" okJob "done" (by decide) rfl]
  decide

/-- C10: the returned `(directory, [uri])` pair of a successful invocation
is a function of the base destination and the file pattern only — any two
successful invocations agreeing on those, whatever their projects, dataset,
table, location or job configuration, return identical outputs. -/
theorem outputs_depend_only_on_destination {ε₁ ε₂ : Type}
    (bq1 src1 dsid1 tbl1 loc1 bq2 src2 dsid2 tbl2 loc2 : String)
    (cfg1 cfg2 : Option (List (String × String)))
    (uri : String) (fp : Option String)
    (job1 : ExtractJobBehavior ε₁) (job2 : ExtractJobBehavior ε₂)
    (out1 out2 : String × List String)
    (h1 : (extract_bq_to_dataset bq1 src1 dsid1 tbl1 uri loc1 cfg1 fp job1).outcome
        = .ok out1)
    (h2 : (extract_bq_to_dataset bq2 src2 dsid2 tbl2 uri loc2 cfg2 fp job2).outcome
        = .ok out2) :
    out1 = out2 := by
  cases hr1 : job1.job_result with
  | error e => simp [extract_bq_to_dataset, hr1] at h1
  | ok r1 =>
    cases hr2 : job2.job_result with
    | error e => simp [extract_bq_to_dataset, hr2] at h2
    | ok r2 =>
      rw [success_outcome bq1 src1 dsid1 tbl1 uri loc1 cfg1 fp job1 r1 hr1] at h1
      rw [success_outcome bq2 src2 dsid2 tbl2 uri loc2 cfg2 fp job2 r2 hr2] at h2
      exact (Except.ok.inj h1).symm.trans (Except.ok.inj h2)

/-- Witness for C10: two invocations differing in client project, source
project, dataset, table, location and job configuration, agreeing on the
destination; both outputs are the same pair. -/
theorem outputs_depend_only_on_destination_witness :
    (extract_bq_to_dataset "proj-a" "proj-b" "ds1" "t1" "gs://bucket/out" "EU"
        none none okJob).outcome = .ok ("gs://bucket", ["gs://bucket/out"]) ∧
    (extract_bq_to_dataset "other-client" "other-src" "ds2" "t2" "gs://bucket/out"
        "US" (some [("compression", "GZIP")]) none okJob).outcome
      = .ok ("gs://bucket", ["gs://bucket/out"]) ∧
    (("gs://bucket", ["gs://bucket/out"]) : String × List String)
      = ("gs://bucket", ["gs://bucket/out"]) :=
  ⟨by decide, by decide,
    outputs_depend_only_on_destination "proj-a" "proj-b" "ds1" "t1" "EU"
      "other-client" "other-src" "ds2" "t2" "US" none
      (some [("compression", "GZIP")]) "gs://bucket/out" none okJob okJob
      ("gs://bucket", ["gs://bucket/out"]) ("gs://bucket", ["gs://bucket/out"])
      (by decide) (by decide)⟩

/-- C7: at the same concrete inputs with `file_pattern = "part-*.csv"`,
the output URI is the destination joined with the pattern and the
directory is the base destination. -/
theorem concrete_pattern_example :
    (extract_bq_to_dataset "proj-a" "proj-b" "ds1" "t1" "gs://bucket/out" "EU"
        none (some "part-*.csv") okJob).outcome
      = .ok ("gs://bucket/out", ["gs://bucket/out/part-*.csv"]) := by
  decide

end ExtractDataset
